import Mathlib

/-!
Aureus — metal composition and pricing engine: shallow embedding.

Embedding of the Go sources of the Aureus coin-valuation backend:

* `backend/internal/metals/spotprices.go` — spot-price oracle, melt-value
  calculators, manual price override;
* `backend/internal/metals/year_based_compositions.go` — year-range resolver
  and its rule table;
* the composition-catalog file (`MetalComposition`, `CommonCompositions`,
  `GetComposition`, `normalizeCoinType`).

Go `float64` values are modelled as exact rationals (`ℚ`); Go `time.Time` /
`time.Duration` values as nanosecond counts (`ℕ`), mirroring Go's
`time.Duration` unit.  External HTTP fetches are modelled as an oracle input:
`fetchRealPrices`'s outcome is passed in as an `Option SpotPrices`
(`none` = every source failed).  The module-level mutable cache
(`cachedPrices`, `lastFetchTime`) is threaded explicitly as `OracleState`.
-/

namespace Aureus

/-- Go struct `MetalComposition` (catalog file).  Field defaults mirror Go zero
values, since most Go composition literals omit the base-metal fields. -/
structure MetalComposition where
  name : String
  metalType : String
  weight : ℚ := 0
  purity : ℚ := 0
  description : String := ""
  isBaseMetal : Bool := false
  weightGrams : ℚ := 0
  copperPercent : ℚ := 0
  nickelPercent : ℚ := 0
deriving DecidableEq

/-- The Go zero value `MetalComposition{}`, returned by `GetComposition` on a
lookup miss. -/
def emptyComposition : MetalComposition :=
  { name := "", metalType := "" }

/-- Go struct `SpotPrices` (`spotprices.go`).  `updatedAt` is a timestamp in
nanoseconds. -/
structure SpotPrices where
  gold : ℚ
  silver : ℚ
  platinum : ℚ
  palladium : ℚ
  copper : ℚ
  nickel : ℚ
  updatedAt : ℕ
deriving DecidableEq

/-- The two module-level mutable variables of `spotprices.go`:
`var cachedPrices *SpotPrices` and `var lastFetchTime time.Time`. -/
structure OracleState where
  cachedPrices : Option SpotPrices
  lastFetchTime : ℕ
deriving DecidableEq

/-- One Go `time.Minute` in nanoseconds. -/
def goMinute : ℕ := 60 * 1000000000

/-- Go constant `cacheDuration = 15 * time.Minute`. -/
def cacheDuration : ℕ := 15 * goMinute

/-- Value of Go `time.Since(last)` at instant `now` (monotone clock, truncated at 0). -/
def timeSince (now last : ℕ) : ℕ := now - last

/-- The static hard-coded fallback snapshot built by `GetSpotPrices` when the
live fetch fails, stamped with the current time. -/
def fallbackPrices (now : ℕ) : SpotPrices :=
  { gold := 2650.00
    silver := 30.50
    platinum := 950.00
    palladium := 950.00
    copper := 5.52
    nickel := 6.96
    updatedAt := now }

/-- Result of one `GetSpotPrices` call: the returned snapshot, the returned
`error`, the module state after the call, and whether the call reached
`fetchRealPrices` (used to express "no outbound call" properties). -/
structure GetSpotPricesResult where
  prices : SpotPrices
  error : Option String
  state : OracleState
  fetchAttempted : Bool
deriving DecidableEq

/-- The non-cached tail of `GetSpotPrices`: try `fetchRealPrices` (modelled by
the oracle input `fetchResult`); on success cache and return it, otherwise
cache and return the static fallback snapshot.  Both outcomes set
`lastFetchTime = now`. -/
def refreshSpotPrices (now : ℕ) (fetchResult : Option SpotPrices) :
    GetSpotPricesResult :=
  match fetchResult with
  | some realPrices =>
      { prices := realPrices
        error := none
        state := { cachedPrices := some realPrices, lastFetchTime := now }
        fetchAttempted := true }
  | none =>
      let prices := fallbackPrices now
      { prices := prices
        error := none
        state := { cachedPrices := some prices, lastFetchTime := now }
        fetchAttempted := true }

/-- Embedding of `GetSpotPrices` (`spotprices.go`): return the cache when it exists and is
younger than `cacheDuration`, otherwise refresh. -/
def GetSpotPrices (st : OracleState) (now : ℕ)
    (fetchResult : Option SpotPrices) : GetSpotPricesResult :=
  match st.cachedPrices with
  | some cached =>
      if timeSince now st.lastFetchTime < cacheDuration then
        { prices := cached, error := none, state := st, fetchAttempted := false }
      else
        refreshSpotPrices now fetchResult
  | none => refreshSpotPrices now fetchResult

/-- Embedding of `UpdateSpotPricesManually` (`spotprices.go`): overwrite the cache with the
caller's four precious-metal prices, static copper/nickel constants and the
current time; reset the fetch timestamp.  The prior state is ignored
entirely (the Go function assigns both globals unconditionally). -/
def UpdateSpotPricesManually (_st : OracleState)
    (gold silver platinum palladium : ℚ) (now : ℕ) : OracleState :=
  { cachedPrices := some
      { gold := gold
        silver := silver
        platinum := platinum
        palladium := palladium
        copper := 5.52
        nickel := 6.96
        updatedAt := now }
    lastFetchTime := now }

/-- Result of one melt-value calculator call: the returned value, the returned
`error`, and the module state after the call (the calculators call
`GetSpotPrices`, which may refresh the cache). -/
structure MeltResult where
  value : ℚ
  error : Option String
  state : OracleState
deriving DecidableEq

/-- Embedding of `CalculateMeltValue` (`spotprices.go`): precious-metal path.  Switches on
`metalType`; copper/nickel return 0 with no error; any other unknown metal
type returns 0 with an "unsupported metal type" error. -/
def CalculateMeltValue (st : OracleState) (now : ℕ)
    (fetchResult : Option SpotPrices) (metalType : String)
    (weight purity : ℚ) : MeltResult :=
  let r := GetSpotPrices st now fetchResult
  match r.error with
  | some e => { value := 0, error := some e, state := r.state }
  | none =>
      let prices := r.prices
      if metalType = "gold" then
        { value := weight * (purity / 100) * prices.gold, error := none, state := r.state }
      else if metalType = "silver" then
        { value := weight * (purity / 100) * prices.silver, error := none, state := r.state }
      else if metalType = "platinum" then
        { value := weight * (purity / 100) * prices.platinum, error := none, state := r.state }
      else if metalType = "palladium" then
        { value := weight * (purity / 100) * prices.palladium, error := none, state := r.state }
      else if metalType = "copper" ∨ metalType = "nickel" then
        { value := 0, error := none, state := r.state }
      else
        { value := 0, error := some ("unsupported metal type: " ++ metalType),
          state := r.state }

/-- Embedding of `CalculateBaseMeltValue` (`spotprices.go`): base-metal path, gram weight
converted to pounds, copper and nickel components priced per pound. -/
def CalculateBaseMeltValue (st : OracleState) (now : ℕ)
    (fetchResult : Option SpotPrices)
    (weightGrams copperPercent nickelPercent : ℚ) : MeltResult :=
  let r := GetSpotPrices st now fetchResult
  match r.error with
  | some e => { value := 0, error := some e, state := r.state }
  | none =>
      let weightPounds := weightGrams / 453.592
      let copperValue := weightPounds * (copperPercent / 100) * r.prices.copper
      let nickelValue := weightPounds * (nickelPercent / 100) * r.prices.nickel
      { value := copperValue + nickelValue, error := none, state := r.state }

/-- Embedding of `CalculateMeltValueFromComposition` (`spotprices.go`): dispatch on
`IsBaseMetal`. -/
def CalculateMeltValueFromComposition (st : OracleState) (now : ℕ)
    (fetchResult : Option SpotPrices) (comp : MetalComposition) : MeltResult :=
  if comp.isBaseMetal then
    CalculateBaseMeltValue st now fetchResult
      comp.weightGrams comp.copperPercent comp.nickelPercent
  else
    CalculateMeltValue st now fetchResult comp.metalType comp.weight comp.purity

/-! Name normalizer (`normalizeCoinType`).

The Go code applies two RE2 regexes with `ReplaceAllString(…, "")`:

* `^\d{4}[-\s]?[A-Z]?\s*` — anchored at the start, so at most one
  replacement; every optional piece is matched greedily (RE2 leftmost-first
  preference; no later piece can force backtracking since all are optional);
* `\s+[A-Z]{2}\d+[A-Z]*$` — anchored at the end, so at most one replacement,
  at the leftmost start position whose whole suffix matches; for this pattern
  greedy sub-matching is deterministic (maximal whitespace run, exactly two
  uppercase letters, maximal digit run, uppercase tail).

Both are embedded on `List Char`. -/

/-- RE2 `\s` character class: `[\t\n\f\r ]`. -/
def isSpaceRE2 (c : Char) : Bool :=
  c = ' ' || c = '\t' || c = '\n' || c = '\x0c' || c = '\r'

/-- RE2 `[A-Z]` character class. -/
def isUpperAZ (c : Char) : Bool :=
  'A' ≤ c && c ≤ 'Z'

/-- Greedy `[-\s]?`: consume one leading hyphen/whitespace when present. -/
def dropOptSep : List Char → List Char
  | [] => []
  | e :: t => if e = '-' || isSpaceRE2 e then t else e :: t

/-- Greedy `[A-Z]?`: consume one leading uppercase letter when present. -/
def dropOptMint : List Char → List Char
  | [] => []
  | e :: t => if isUpperAZ e then t else e :: t

/-- Effect of `ReplaceAllString(regexp ^\d{4}[-\s]?[A-Z]?\s*, "")`: when the string
begins with four digits, greedily strip the year token; otherwise leave the
string unchanged. -/
def stripLeadYear (l : List Char) : List Char :=
  match l with
  | a :: b :: c :: d :: rest =>
      if a.isDigit && b.isDigit && c.isDigit && d.isDigit then
        (dropOptMint (dropOptSep rest)).dropWhile isSpaceRE2
      else l
  | _ => l

/-- Does the whole list match `\s+[A-Z]{2}\d+[A-Z]*` (the trailing-grade
pattern of the Go code, with the `$` anchor expressed as "consumes the whole
list")? -/
def matchGradeTok (l : List Char) : Bool :=
  match l.span isSpaceRE2 with
  | (w, a :: b :: r2) =>
      !w.isEmpty && isUpperAZ a && isUpperAZ b &&
        (match r2.span Char.isDigit with
         | (ds, r3) => !ds.isEmpty && r3.all isUpperAZ)
  | _ => false

/-- Effect of `ReplaceAllString(regexp \s+[A-Z]{2}\d+[A-Z]*$, "")`: drop the suffix
starting at the leftmost position whose suffix matches the grade pattern;
unchanged when no suffix matches. -/
def stripTrailGrade (l : List Char) : List Char :=
  match (List.range l.length).find? (fun i => matchGradeTok (l.drop i)) with
  | some i => l.take i
  | none => l

/-- Embedding of `normalizeCoinType` (catalog file): strip a leading year/mint-mark token,
then a trailing grade token. -/
def normalizeCoinType (coinType : String) : String :=
  ⟨stripTrailGrade (stripLeadYear coinType.data)⟩

/-- Does the string begin with a match of `^\d{4}[-\s]?[A-Z]?\s*`, i.e. with
four digits (the rest of the pattern is optional)? -/
def hasLeadingYearTok (l : List Char) : Bool :=
  match l with
  | a :: b :: c :: d :: _ => a.isDigit && b.isDigit && c.isDigit && d.isDigit
  | _ => false

/-- Does some suffix of the string match the trailing-grade pattern
`\s+[A-Z]{2}\d+[A-Z]*$`? -/
def hasTrailingGradeTok (l : List Char) : Bool :=
  (List.range l.length).any (fun i => matchGradeTok (l.drop i))

/-! Composition catalog (`CommonCompositions`, `GetComposition`).

The Go catalog is a `map[string]MetalComposition` with distinct literal keys;
it is embedded as an association list (in source order) queried with
`List.lookup`, which is equivalent to a map lookup since the keys are
distinct. -/

/-- Go map `CommonCompositions` (catalog file), transcribed entry by entry. -/
def CommonCompositions : List (String × MetalComposition) := [
  ("Morgan Dollar",
   { name := "Morgan Dollar", metalType := "silver", weight := 0.77344, purity := 90,
     description := "Contains 0.77344 oz of silver (90% silver, 10% copper)" }),
  ("Peace Dollar",
   { name := "Peace Dollar", metalType := "silver", weight := 0.77344, purity := 90,
     description := "Contains 0.77344 oz of silver (90% silver, 10% copper)" }),
  ("Eisenhower Dollar",
   { name := "Eisenhower Dollar", metalType := "copper", weight := 0.0, purity := 0,
     description := "Copper-nickel clad, no precious metal content" }),
  ("Walking Liberty Half Dollar",
   { name := "Walking Liberty Half Dollar", metalType := "silver", weight := 0.36169, purity := 90,
     description := "Contains 0.36169 oz of silver (90% silver, 10% copper)" }),
  ("Franklin Half Dollar",
   { name := "Franklin Half Dollar", metalType := "silver", weight := 0.36169, purity := 90,
     description := "Contains 0.36169 oz of silver (90% silver, 10% copper)" }),
  ("Kennedy Half Dollar",
   { name := "Kennedy Half Dollar (1964)", metalType := "silver", weight := 0.36169, purity := 90,
     description := "1964 only: 90% silver. 1965-1970: 40% silver. 1971+: no silver" }),
  ("Washington Quarter",
   { name := "Washington Quarter (Pre-1965)", metalType := "silver", weight := 0.18084, purity := 90,
     description := "Pre-1965 only: Contains 0.18084 oz of silver (90% silver)" }),
  ("Standing Liberty Quarter",
   { name := "Standing Liberty Quarter", metalType := "silver", weight := 0.18084, purity := 90,
     description := "Contains 0.18084 oz of silver (90% silver, 10% copper)" }),
  ("Mercury Dime",
   { name := "Mercury Dime", metalType := "silver", weight := 0.07234, purity := 90,
     description := "Contains 0.07234 oz of silver (90% silver, 10% copper)" }),
  ("Roosevelt Dime",
   { name := "Roosevelt Dime (Pre-1965)", metalType := "silver", weight := 0.07234, purity := 90,
     description := "Pre-1965 only: Contains 0.07234 oz of silver (90% silver)" }),
  ("Barber Dime",
   { name := "Barber Dime", metalType := "silver", weight := 0.07234, purity := 90,
     description := "Contains 0.07234 oz of silver (90% silver, 10% copper)" }),
  ("American Gold Eagle (1 oz)",
   { name := "American Gold Eagle (1 oz)", metalType := "gold", weight := 1.0, purity := 91.67,
     description := "Contains 1 troy oz of pure gold (22 karat, 91.67% gold)" }),
  ("American Gold Eagle (1/2 oz)",
   { name := "American Gold Eagle (1/2 oz)", metalType := "gold", weight := 0.5, purity := 91.67,
     description := "Contains 0.5 troy oz of pure gold (22 karat)" }),
  ("American Gold Eagle (1/4 oz)",
   { name := "American Gold Eagle (1/4 oz)", metalType := "gold", weight := 0.25, purity := 91.67,
     description := "Contains 0.25 troy oz of pure gold (22 karat)" }),
  ("American Gold Eagle (1/10 oz)",
   { name := "American Gold Eagle (1/10 oz)", metalType := "gold", weight := 0.1, purity := 91.67,
     description := "Contains 0.1 troy oz of pure gold (22 karat)" }),
  ("$20 Liberty",
   { name := "$20 Liberty Gold Coin", metalType := "gold", weight := 0.96750, purity := 90,
     description := "Contains 0.96750 oz of pure gold (90% gold)" }),
  ("$20 Saint Gaudens",
   { name := "$20 Saint Gaudens", metalType := "gold", weight := 0.96750, purity := 90,
     description := "Contains 0.96750 oz of pure gold (90% gold)" }),
  ("$10 Liberty",
   { name := "$10 Liberty Gold Coin", metalType := "gold", weight := 0.48375, purity := 90,
     description := "Contains 0.48375 oz of pure gold (90% gold)" }),
  ("$10 Indian",
   { name := "$10 Indian Gold Coin", metalType := "gold", weight := 0.48375, purity := 90,
     description := "Contains 0.48375 oz of pure gold (90% gold)" }),
  ("$5 Liberty",
   { name := "$5 Liberty Gold Coin", metalType := "gold", weight := 0.24187, purity := 90,
     description := "Contains 0.24187 oz of pure gold (90% gold)" }),
  ("$5 Indian",
   { name := "$5 Indian Gold Coin", metalType := "gold", weight := 0.24187, purity := 90,
     description := "Contains 0.24187 oz of pure gold (90% gold)" }),
  ("$2.50 Liberty",
   { name := "$2.50 Liberty Gold Coin", metalType := "gold", weight := 0.12094, purity := 90,
     description := "Contains 0.12094 oz of pure gold (90% gold)" }),
  ("$2.50 Indian",
   { name := "$2.50 Indian Gold Coin", metalType := "gold", weight := 0.12094, purity := 90,
     description := "Contains 0.12094 oz of pure gold (90% gold)" }),
  ("$1 Liberty",
   { name := "$1 Liberty Gold Coin", metalType := "gold", weight := 0.04837, purity := 90,
     description := "Contains 0.04837 oz of pure gold (90% gold)" }),
  ("Buffalo Nickel",
   { name := "Buffalo Nickel (1913-1938)", metalType := "copper", weight := 0.0, purity := 0,
     description := "75% copper, 25% nickel. No precious metal content - base metal only",
     isBaseMetal := true, weightGrams := 5.0, copperPercent := 75.0, nickelPercent := 25.0 }),
  ("Jefferson Nickel",
   { name := "Jefferson Nickel", metalType := "copper", weight := 0.0, purity := 0,
     description := "75% copper, 25% nickel (wartime 1942-1945: 35% silver). No precious metal content in regular strikes",
     isBaseMetal := true, weightGrams := 5.0, copperPercent := 75.0, nickelPercent := 25.0 }),
  ("Jefferson Nickel (Wartime Silver)",
   { name := "Jefferson Nickel (1942-1945 Silver)", metalType := "silver", weight := 0.05626, purity := 35,
     description := "Wartime 1942-1945 with large mintmark above Monticello: 35% silver, 0.05626 oz" }),
  ("Liberty Nickel",
   { name := "Liberty Head Nickel (1883-1913)", metalType := "copper", weight := 0.0, purity := 0,
     description := "75% copper, 25% nickel. No precious metal content",
     isBaseMetal := true, weightGrams := 5.0, copperPercent := 75.0, nickelPercent := 25.0 }),
  ("Shield Nickel",
   { name := "Shield Nickel (1866-1883)", metalType := "copper", weight := 0.0, purity := 0,
     description := "75% copper, 25% nickel. No precious metal content",
     isBaseMetal := true, weightGrams := 5.0, copperPercent := 75.0, nickelPercent := 25.0 }),
  ("Indian Head Cent",
   { name := "Indian Head Cent", metalType := "copper", weight := 0.0, purity := 0,
     description := "95% copper, 5% tin and zinc. No precious metal content" }),
  ("Lincoln Cent",
   { name := "Lincoln Cent (Pre-1982)", metalType := "copper", weight := 0.0, purity := 0,
     description := "95% copper, 5% zinc. No precious metal content" }),
  ("Wheat Penny",
   { name := "Wheat Penny (1909-1958)", metalType := "copper", weight := 0.0, purity := 0,
     description := "95% copper, 5% tin and zinc. No precious metal content" }),
  ("Steel Penny",
   { name := "Steel Penny (1943)", metalType := "copper", weight := 0.0, purity := 0,
     description := "Zinc-coated steel. No precious metal content" }),
  ("Three Cent Silver",
   { name := "Three Cent Silver (Trime)", metalType := "silver", weight := 0.02419, purity := 75,
     description := "Contains 0.02419 oz of silver (75% silver, 25% copper)" }),
  ("Seated Liberty Half Dime",
   { name := "Seated Liberty Half Dime", metalType := "silver", weight := 0.03617, purity := 90,
     description := "Contains 0.03617 oz of silver (90% silver, 10% copper)" }),
  ("Bust Half Dime",
   { name := "Bust Half Dime", metalType := "silver", weight := 0.03617, purity := 89.24,
     description := "Contains 0.03617 oz of silver (89.24% silver)" }),
  ("Barber Quarter",
   { name := "Barber Quarter", metalType := "silver", weight := 0.18084, purity := 90,
     description := "Contains 0.18084 oz of silver (90% silver, 10% copper)" }),
  ("Seated Liberty Quarter",
   { name := "Seated Liberty Quarter", metalType := "silver", weight := 0.18084, purity := 90,
     description := "Contains 0.18084 oz of silver (90% silver, 10% copper)" }),
  ("Draped Bust Quarter",
   { name := "Draped Bust Quarter", metalType := "silver", weight := 0.19285, purity := 89.24,
     description := "Contains 0.19285 oz of silver (89.24% silver)" }),
  ("Capped Bust Quarter",
   { name := "Capped Bust Quarter", metalType := "silver", weight := 0.19285, purity := 89.24,
     description := "Contains 0.19285 oz of silver (89.24% silver)" }),
  ("Barber Half Dollar",
   { name := "Barber Half Dollar", metalType := "silver", weight := 0.36169, purity := 90,
     description := "Contains 0.36169 oz of silver (90% silver, 10% copper)" }),
  ("Seated Liberty Half Dollar",
   { name := "Seated Liberty Half Dollar", metalType := "silver", weight := 0.36169, purity := 90,
     description := "Contains 0.36169 oz of silver (90% silver, 10% copper)" }),
  ("Capped Bust Half Dollar",
   { name := "Capped Bust Half Dollar", metalType := "silver", weight := 0.38570, purity := 89.24,
     description := "Contains 0.38570 oz of silver (89.24% silver)" }),
  ("Draped Bust Half Dollar",
   { name := "Draped Bust Half Dollar", metalType := "silver", weight := 0.38570, purity := 89.24,
     description := "Contains 0.38570 oz of silver (89.24% silver)" }),
  ("Seated Liberty Dollar",
   { name := "Seated Liberty Dollar", metalType := "silver", weight := 0.77344, purity := 90,
     description := "Contains 0.77344 oz of silver (90% silver, 10% copper)" }),
  ("Trade Dollar",
   { name := "Trade Dollar", metalType := "silver", weight := 0.78287, purity := 90,
     description := "Contains 0.78287 oz of silver (90% silver, 10% copper)" }),
  ("Bust Dollar",
   { name := "Bust Dollar", metalType := "silver", weight := 0.77344, purity := 89.24,
     description := "Contains 0.77344 oz of silver (89.24% silver)" }),
  ("American Silver Eagle",
   { name := "American Silver Eagle (1 oz)", metalType := "silver", weight := 1.0, purity := 99.9,
     description := "Contains 1 troy oz of pure silver (99.9% silver)" }),
  ("Canadian Maple Leaf (Gold)",
   { name := "Canadian Gold Maple Leaf (1 oz)", metalType := "gold", weight := 1.0, purity := 99.99,
     description := "Contains 1 troy oz of pure gold (99.99% gold)" }),
  ("Canadian Maple Leaf (Silver)",
   { name := "Canadian Silver Maple Leaf (1 oz)", metalType := "silver", weight := 1.0, purity := 99.99,
     description := "Contains 1 troy oz of pure silver (99.99% silver)" }),
  ("American Buffalo (Gold)",
   { name := "American Gold Buffalo (1 oz)", metalType := "gold", weight := 1.0, purity := 99.99,
     description := "Contains 1 troy oz of pure gold (99.99% gold - 24 karat)" }),
  ("Krugerrand",
   { name := "South African Krugerrand (1 oz)", metalType := "gold", weight := 1.0, purity := 91.67,
     description := "Contains 1 troy oz of pure gold (22 karat, 91.67% gold)" }),
  ("Vienna Philharmonic (Gold)",
   { name := "Austrian Gold Philharmonic (1 oz)", metalType := "gold", weight := 1.0, purity := 99.99,
     description := "Contains 1 troy oz of pure gold (99.99% gold)" }),
  ("Britannia (Gold)",
   { name := "British Gold Britannia (1 oz)", metalType := "gold", weight := 1.0, purity := 99.99,
     description := "Contains 1 troy oz of pure gold (99.99% gold)" }),
  ("Britannia (Silver)",
   { name := "British Silver Britannia (1 oz)", metalType := "silver", weight := 1.0, purity := 99.9,
     description := "Contains 1 troy oz of pure silver (99.9% silver)" })]

/-- Embedding of `GetComposition` (catalog file): exact lookup, then one retry with the
normalized name when normalization changed the string, else NotFound
(the Go zero composition paired with `false`). -/
def GetComposition (coinType : String) : MetalComposition × Bool :=
  match CommonCompositions.lookup coinType with
  | some comp => (comp, true)
  | none =>
      let normalized := normalizeCoinType coinType
      if normalized ≠ coinType then
        match CommonCompositions.lookup normalized with
        | some comp => (comp, true)
        | none => (emptyComposition, false)
      else
        (emptyComposition, false)

/-! Year-range resolver (`year_based_compositions.go`). -/

/-- Go struct `YearRange`. -/
structure YearRange where
  startYear : Int
  endYear : Int
  composition : MetalComposition
deriving DecidableEq

/-- Go struct `YearBasedComposition`. -/
structure YearBasedComposition where
  coinType : String
  yearRanges : List YearRange
  defaultComp : MetalComposition
deriving DecidableEq

/-- Go table `YearBasedCompositions`, transcribed in declaration order. -/
def YearBasedCompositions : List YearBasedComposition := [
  { coinType := "Kennedy Half Dollar"
    yearRanges := [
      { startYear := 1964, endYear := 1964,
        composition :=
          { name := "Kennedy Half Dollar (1964)", metalType := "silver",
            weight := 0.36169, purity := 90,
            description := "1964 only: Contains 0.36169 oz of silver (90% silver)" } },
      { startYear := 1965, endYear := 1970,
        composition :=
          { name := "Kennedy Half Dollar (1965-1970)", metalType := "silver",
            weight := 0.14792, purity := 40,
            description := "1965-1970: Contains 0.14792 oz of silver (40% silver)" } }]
    defaultComp :=
      { name := "Kennedy Half Dollar (1971+)", metalType := "copper",
        weight := 0.0, purity := 0,
        description := "1971+: Copper-nickel clad, no precious metal content" } },
  { coinType := "Washington Quarter"
    yearRanges := [
      { startYear := 1932, endYear := 1964,
        composition :=
          { name := "Washington Quarter (1932-1964)", metalType := "silver",
            weight := 0.18084, purity := 90,
            description := "1932-1964: Contains 0.18084 oz of silver (90% silver)" } }]
    defaultComp :=
      { name := "Washington Quarter (1965+)", metalType := "copper",
        weight := 0.0, purity := 0,
        description := "1965+: Copper-nickel clad, no precious metal content" } },
  { coinType := "Roosevelt Dime"
    yearRanges := [
      { startYear := 1946, endYear := 1964,
        composition :=
          { name := "Roosevelt Dime (1946-1964)", metalType := "silver",
            weight := 0.07234, purity := 90,
            description := "1946-1964: Contains 0.07234 oz of silver (90% silver)" } }]
    defaultComp :=
      { name := "Roosevelt Dime (1965+)", metalType := "copper",
        weight := 0.0, purity := 0,
        description := "1965+: Copper-nickel clad, no precious metal content" } },
  { coinType := "Jefferson Nickel"
    yearRanges := [
      { startYear := 1942, endYear := 1945,
        composition :=
          { name := "Jefferson Nickel (1942-1945 Wartime)", metalType := "silver",
            weight := 0.05626, purity := 35,
            description := "1942-1945 wartime with large mintmark: 35% silver, 0.05626 oz (Note: Not all 1942 nickels are silver - only those with large mintmark above Monticello)" } }]
    defaultComp :=
      { name := "Jefferson Nickel (Regular)", metalType := "copper",
        weight := 0.0, purity := 0,
        description := "75% copper, 25% nickel. No precious metal content",
        isBaseMetal := true, weightGrams := 5.0,
        copperPercent := 75.0, nickelPercent := 25.0 } },
  { coinType := "Lincoln Cent"
    yearRanges := [
      { startYear := 1909, endYear := 1942,
        composition :=
          { name := "Lincoln Cent (1909-1942)", metalType := "copper",
            weight := 0.0, purity := 0,
            description := "95% copper, 5% tin and zinc. No precious metal content" } },
      { startYear := 1943, endYear := 1943,
        composition :=
          { name := "Lincoln Cent (1943 Steel)", metalType := "copper",
            weight := 0.0, purity := 0,
            description := "1943: Zinc-coated steel. No precious metal content" } },
      { startYear := 1944, endYear := 1946,
        composition :=
          { name := "Lincoln Cent (1944-1946 Shell Casing)", metalType := "copper",
            weight := 0.0, purity := 0,
            description := "95% copper, 5% zinc (recycled shell casings). No precious metal content" } },
      { startYear := 1947, endYear := 1982,
        composition :=
          { name := "Lincoln Cent (1947-1982)", metalType := "copper",
            weight := 0.0, purity := 0,
            description := "95% copper, 5% zinc. No precious metal content" } }]
    defaultComp :=
      { name := "Lincoln Cent (1982+)", metalType := "copper",
        weight := 0.0, purity := 0,
        description := "1982+: 97.5% zinc, 2.5% copper plating. No precious metal content" } },
  { coinType := "Eisenhower Dollar"
    yearRanges := [
      { startYear := 1971, endYear := 1976,
        composition :=
          { name := "Eisenhower Dollar (1971-1976 Silver)", metalType := "silver",
            weight := 0.31625, purity := 40,
            description := "1971-1976 40% silver version (S mint only): Contains 0.31625 oz of silver" } }]
    defaultComp :=
      { name := "Eisenhower Dollar (Copper-Nickel Clad)", metalType := "copper",
        weight := 0.0, purity := 0,
        description := "Copper-nickel clad, no precious metal content (most common)" } },
  { coinType := "Susan B. Anthony Dollar"
    yearRanges := []
    defaultComp :=
      { name := "Susan B. Anthony Dollar", metalType := "copper",
        weight := 0.0, purity := 0,
        description := "Copper-nickel clad, no precious metal content" } },
  { coinType := "Sacagawea Dollar"
    yearRanges := []
    defaultComp :=
      { name := "Sacagawea Dollar", metalType := "copper",
        weight := 0.0, purity := 0,
        description := "Manganese brass, no precious metal content" } }]

/-- Inner loop of `GetCompositionByYear`: first range containing `year`, in
declaration order. -/
def findYearRange (year : Int) : List YearRange → Option MetalComposition
  | [] => none
  | yr :: rest =>
      if yr.startYear ≤ year ∧ year ≤ yr.endYear then some yr.composition
      else findYearRange year rest

/-- Outer loop of `GetCompositionByYear`: first table entry whose `coinType`
matches. -/
def findYearBased (coinType : String) : List YearBasedComposition → Option YearBasedComposition
  | [] => none
  | ybc :: rest =>
      if ybc.coinType = coinType then some ybc else findYearBased coinType rest

/-- Embedding of `GetCompositionByYear` generalized over the rule table it scans (the Go
function reads the global `YearBasedCompositions`). -/
def getCompositionByYearIn (table : List YearBasedComposition)
    (coinType : String) (year : Int) : MetalComposition × Bool :=
  match findYearBased coinType table with
  | some ybc =>
      match findYearRange year ybc.yearRanges with
      | some comp => (comp, true)
      | none => (ybc.defaultComp, true)
  | none => GetComposition coinType

/-- Embedding of `GetCompositionByYear` (`year_based_compositions.go`). -/
def GetCompositionByYear (coinType : String) (year : Int) : MetalComposition × Bool :=
  getCompositionByYearIn YearBasedCompositions coinType year

/-- The composition-resolution dispatch performed by the coin handlers
(`if coin.Year > 0 … GetCompositionByYear … else … GetComposition`). -/
def resolveComposition (coinType : String) (year : Int) : MetalComposition × Bool :=
  if year > 0 then GetCompositionByYear coinType year
  else GetComposition coinType

/-! Spec-side normalizer definitions, for refinement comparison.  The spec
(§4.1) states the trailing-grade pattern as a 2-4 letter grade followed by
digits and optional suffix letters; these definitions follow the spec's words,
phrased through character runs (an uppercase run of admissible length followed
by a digit run), deliberately unlike the code embedding above. -/

/-- Modelled from the spec's words (§4.1): the whole list matches the spec's
trailing pattern with a 2-4 letter grade, i.e. a nonempty whitespace run, an
uppercase run of length 2 to 4, a nonempty digit run and an uppercase tail. -/
def specMatchGradeTok (l : List Char) : Bool :=
  match l.span isSpaceRE2 with
  | (w, r1) =>
      match r1.span isUpperAZ with
      | (u, r2) =>
          match r2.span Char.isDigit with
          | (d, r3) =>
              !w.isEmpty && (2 ≤ u.length && u.length ≤ 4) && !d.isEmpty &&
                r3.all isUpperAZ

/-- Modelled from the spec's words: strip the trailing grade token (2-4 letter
variant), taken at the leftmost position whose suffix matches. -/
def specStripTrailGrade (l : List Char) : List Char :=
  match (List.range l.length).find? (fun i => specMatchGradeTok (l.drop i)) with
  | some i => l.take i
  | none => l

/-- Modelled from the spec's words: the normalizer as the spec states it, with
the 2-4 letter trailing grade class. -/
def specNormalize (coinType : String) : String :=
  ⟨specStripTrailGrade (stripLeadYear coinType.data)⟩

/-- Run-based statement of the trailing pattern with an exactly-2-letter grade
class (the class the code actually uses): a nonempty whitespace run, an
uppercase run of length exactly 2, a nonempty digit run and an uppercase
tail. -/
def specMatchGradeTokTwo (l : List Char) : Bool :=
  match l.span isSpaceRE2 with
  | (w, r1) =>
      match r1.span isUpperAZ with
      | (u, r2) =>
          match r2.span Char.isDigit with
          | (d, r3) =>
              !w.isEmpty && u.length = 2 && !d.isEmpty && r3.all isUpperAZ

/-- Trailing strip for the exactly-2-letter grade class, leftmost match. -/
def specStripTrailGradeTwo (l : List Char) : List Char :=
  match (List.range l.length).find? (fun i => specMatchGradeTokTwo (l.drop i)) with
  | some i => l.take i
  | none => l

/-- The normalizer as the amended spec sentence states it: leading year token,
then trailing grade token with an exactly-2-letter grade class. -/
def specNormalizeTwo (coinType : String) : String :=
  ⟨specStripTrailGradeTwo (stripLeadYear coinType.data)⟩

/-! Nonnegativity predicates for the melt-value claims. -/

/-- All six price fields of a snapshot are nonnegative. -/
def NonnegPrices (p : SpotPrices) : Prop :=
  0 ≤ p.gold ∧ 0 ≤ p.silver ∧ 0 ≤ p.platinum ∧ 0 ≤ p.palladium ∧
    0 ≤ p.copper ∧ 0 ≤ p.nickel

/-- Whatever snapshot the state caches (if any) has nonnegative prices. -/
def NonnegOracleState (st : OracleState) : Prop :=
  ∀ p, st.cachedPrices = some p → NonnegPrices p

/-- Whatever snapshot the fetch oracle returns (if any) has nonnegative
prices. -/
def NonnegFetch (f : Option SpotPrices) : Prop :=
  ∀ p, f = some p → NonnegPrices p

/-! Synthetic fixtures for the spec's overlapping-year-ranges test (§8.3):
two overlapping ranges registered for one synthetic type. -/

/-- Fixture: composition of the first-declared test range. -/
def testCompA : MetalComposition :=
  { name := "Range A", metalType := "silver", weight := 1, purity := 90 }

/-- Fixture: composition of the second-declared test range. -/
def testCompB : MetalComposition :=
  { name := "Range B", metalType := "silver", weight := 2, purity := 90 }

/-- Fixture: default composition of the synthetic test type. -/
def testCompDefault : MetalComposition :=
  { name := "Test Default", metalType := "copper" }

/-- Fixture table: one synthetic type with overlapping ranges 1960-1970 and
1965-1975, in that declaration order. -/
def overlappingTestTable : List YearBasedComposition :=
  [{ coinType := "Synthetic Test Coin"
     yearRanges := [
       { startYear := 1960, endYear := 1970, composition := testCompA },
       { startYear := 1965, endYear := 1975, composition := testCompB }]
     defaultComp := testCompDefault }]

/-! Helper lemmas shared by several claim theorems. -/

/-- Every path of `GetSpotPrices` returns a `nil` error. -/
theorem getSpotPrices_error_eq_none (st : OracleState) (now : ℕ)
    (f : Option SpotPrices) : (GetSpotPrices st now f).error = none := by
  rcases st with ⟨cached, last⟩
  rcases cached with _ | p <;> rcases f with _ | q <;>
    simp [GetSpotPrices, refreshSpotPrices] <;> split <;> rfl

/-- C3: `GetSpotPrices` is total: every oracle state and fetch outcome yields a
`nil` error, and when the cache is cold or stale and both external feeds fail
it returns the static fallback snapshot stamped with the current time (and
caches it). -/
theorem C3_getSpotPrices_total (st : OracleState) (now : ℕ)
    (fetchResult : Option SpotPrices) :
    (GetSpotPrices st now fetchResult).error = none ∧
    (fetchResult = none →
      (st.cachedPrices = none ∨ cacheDuration ≤ timeSince now st.lastFetchTime) →
      GetSpotPrices st now fetchResult =
        { prices := fallbackPrices now
          error := none
          state := { cachedPrices := some (fallbackPrices now), lastFetchTime := now }
          fetchAttempted := true }) := by
  refine ⟨getSpotPrices_error_eq_none st now fetchResult, ?_⟩
  rintro rfl hstale
  rcases st with ⟨cached, last⟩
  rcases cached with _ | p
  · rfl
  · rcases hstale with hnone | hstale
    · exact absurd hnone (by simp)
    · simp only [GetSpotPrices]
      rw [if_neg (Nat.not_lt.mpr hstale)]
      rfl

/-- Closed instance of C3: cold cache, both feeds failed. -/
theorem C3_witness :
    (GetSpotPrices ⟨none, 0⟩ 5 none).error = none ∧
    GetSpotPrices ⟨none, 0⟩ 5 none =
      { prices := fallbackPrices 5
        error := none
        state := { cachedPrices := some (fallbackPrices 5), lastFetchTime := 5 }
        fetchAttempted := true } :=
  ⟨(C3_getSpotPrices_total ⟨none, 0⟩ 5 none).1,
   (C3_getSpotPrices_total ⟨none, 0⟩ 5 none).2 rfl (Or.inl rfl)⟩

/-- C5: with a cached snapshot younger than the 15-minute TTL,
`GetSpotPrices` returns exactly that snapshot, leaves the state unchanged and
attempts no fetch; once the age reaches the TTL it attempts a refresh, and
every refresh outcome resets the fetch timestamp to the current time. -/
theorem C5_cache_ttl (st : OracleState) (now : ℕ)
    (fetchResult : Option SpotPrices) (p : SpotPrices)
    (hc : st.cachedPrices = some p) :
    (timeSince now st.lastFetchTime < cacheDuration →
      GetSpotPrices st now fetchResult =
        { prices := p, error := none, state := st, fetchAttempted := false }) ∧
    (cacheDuration ≤ timeSince now st.lastFetchTime →
      (GetSpotPrices st now fetchResult).fetchAttempted = true ∧
      (GetSpotPrices st now fetchResult).state.lastFetchTime = now) := by
  rcases st with ⟨cached, last⟩
  simp only [OracleState.cachedPrices] at hc
  subst hc
  constructor
  · intro hfresh
    simp only [GetSpotPrices]
    rw [if_pos hfresh]
  · intro hstale
    simp only [GetSpotPrices]
    rw [if_neg (Nat.not_lt.mpr hstale)]
    rcases fetchResult with _ | q <;> exact ⟨rfl, rfl⟩

/-- Closed instance of C5: a fresh cache is returned unchanged with no fetch;
at exactly the TTL a refresh is attempted. -/
theorem C5_witness :
    timeSince 10 0 < cacheDuration ∧
    GetSpotPrices ⟨some (fallbackPrices 0), 0⟩ 10 none =
      { prices := fallbackPrices 0
        error := none
        state := ⟨some (fallbackPrices 0), 0⟩
        fetchAttempted := false } ∧
    (GetSpotPrices ⟨some (fallbackPrices 0), 0⟩ cacheDuration none).fetchAttempted = true :=
  ⟨by decide,
   (C5_cache_ttl ⟨some (fallbackPrices 0), 0⟩ 10 none (fallbackPrices 0) rfl).1 (by decide),
   ((C5_cache_ttl ⟨some (fallbackPrices 0), 0⟩ cacheDuration none (fallbackPrices 0) rfl).2
     (by simp [timeSince])).1⟩

/-- C10: after `UpdateSpotPricesManually`, the cache holds the four arguments
as precious prices, the static constants 5.52 / 6.96 for copper / nickel (for
any prior state), and the fetch timestamp is reset, so a `GetSpotPrices`
within the TTL returns this snapshot unchanged with no fetch. -/
theorem C10_manual_update (st : OracleState)
    (gold silver platinum palladium : ℚ) (now now2 : ℕ)
    (fetchResult : Option SpotPrices)
    (h : timeSince now2 now < cacheDuration) :
    (UpdateSpotPricesManually st gold silver platinum palladium now).cachedPrices =
      some { gold := gold, silver := silver, platinum := platinum,
             palladium := palladium, copper := 5.52, nickel := 6.96,
             updatedAt := now } ∧
    (UpdateSpotPricesManually st gold silver platinum palladium now).lastFetchTime = now ∧
    GetSpotPrices (UpdateSpotPricesManually st gold silver platinum palladium now)
        now2 fetchResult =
      { prices := { gold := gold, silver := silver, platinum := platinum,
                    palladium := palladium, copper := 5.52, nickel := 6.96,
                    updatedAt := now }
        error := none
        state := UpdateSpotPricesManually st gold silver platinum palladium now
        fetchAttempted := false } := by
  refine ⟨rfl, rfl, ?_⟩
  simp only [GetSpotPrices, UpdateSpotPricesManually]
  rw [if_pos h]

/-- Closed instance of C10: a manual override with arbitrary precious prices
still caches copper 5.52 and nickel 6.96, and a fresh read returns it. -/
theorem C10_witness :
    timeSince 7 7 < cacheDuration ∧
    (UpdateSpotPricesManually ⟨none, 0⟩ 1 2 3 4 7).cachedPrices =
      some { gold := 1, silver := 2, platinum := 3, palladium := 4,
             copper := 5.52, nickel := 6.96, updatedAt := 7 } ∧
    GetSpotPrices (UpdateSpotPricesManually ⟨none, 0⟩ 1 2 3 4 7) 7 none =
      { prices := { gold := 1, silver := 2, platinum := 3, palladium := 4,
                    copper := 5.52, nickel := 6.96, updatedAt := 7 }
        error := none
        state := UpdateSpotPricesManually ⟨none, 0⟩ 1 2 3 4 7
        fetchAttempted := false } :=
  ⟨by decide,
   (C10_manual_update ⟨none, 0⟩ 1 2 3 4 7 7 none (by decide)).1,
   (C10_manual_update ⟨none, 0⟩ 1 2 3 4 7 7 none (by decide)).2.2⟩

/-- C1 as stated is false: for `year = 0` and a coin type with registered
year rules, `GetCompositionByYear` does not return the static catalog lookup
result — it returns the year-rule set's default composition instead. -/
theorem C1_counterexample :
    GetCompositionByYear "Kennedy Half Dollar" 0 ≠
      GetComposition "Kennedy Half Dollar" := by decide

/-- C1 (amended): `GetCompositionByYear` itself never skips the year-rule
path; the `year <= 0` skip lives at the call sites, which call
`GetComposition` directly.  The combined caller-level resolver therefore
returns exactly the static catalog lookup for every `year <= 0`. -/
theorem C1_resolver_dispatch (coinType : String) (year : Int) (h : year ≤ 0) :
    resolveComposition coinType year = GetComposition coinType := by
  unfold resolveComposition
  rw [if_neg (by omega)]

/-- Closed instance of C1 (amended) at year 0 for a type with year rules. -/
theorem C1_witness :
    (0 : Int) ≤ 0 ∧
    resolveComposition "Kennedy Half Dollar" 0 =
      GetComposition "Kennedy Half Dollar" :=
  ⟨by decide, C1_resolver_dispatch "Kennedy Half Dollar" 0 (by decide)⟩

/-- C2 as stated is false: a metal type outside the known enum that is not
the copper/nickel sentinel (here "zinc") yields an error, not a bare 0. -/
theorem C2_counterexample :
    (CalculateMeltValue ⟨none, 0⟩ 0 none "zinc" 1 100).error =
      some "unsupported metal type: zinc" ∧
    (CalculateMeltValue ⟨none, 0⟩ 0 none "zinc" 1 100).error ≠ none := by decide

/-- C2 (amended): for every metal type outside {gold, silver, platinum,
palladium} the precious-path calculator returns the value 0, but the error is
`nil` exactly for the sentinel types "copper" and "nickel"; any other such
metal type is reported as an unsupported-metal-type error. -/
theorem C2_sentinel_metals (st : OracleState) (now : ℕ)
    (fetchResult : Option SpotPrices) (metalType : String) (weight purity : ℚ)
    (h : metalType ∉ (["gold", "silver", "platinum", "palladium"] : List String)) :
    (CalculateMeltValue st now fetchResult metalType weight purity).value = 0 ∧
    ((CalculateMeltValue st now fetchResult metalType weight purity).error = none ↔
      (metalType = "copper" ∨ metalType = "nickel")) := by
  simp only [List.mem_cons, List.not_mem_nil, or_false, not_or] at h
  obtain ⟨h1, h2, h3, h4⟩ := h
  unfold CalculateMeltValue
  simp only [getSpotPrices_error_eq_none, h1, h2, h3, h4, if_false]
  by_cases hcn : metalType = "copper" ∨ metalType = "nickel"
  · rw [if_pos hcn]
    simp [hcn]
  · rw [if_neg hcn]
    simp [hcn]

/-- Closed instance of C2 (amended): "zinc" gives value 0 with an error;
the sentinel equivalence evaluates as stated. -/
theorem C2_witness :
    "zinc" ∉ (["gold", "silver", "platinum", "palladium"] : List String) ∧
    ((CalculateMeltValue ⟨none, 0⟩ 0 none "zinc" 1 100).value = 0 ∧
     ((CalculateMeltValue ⟨none, 0⟩ 0 none "zinc" 1 100).error = none ↔
       ("zinc" = "copper" ∨ "zinc" = "nickel"))) :=
  ⟨by decide, C2_sentinel_metals ⟨none, 0⟩ 0 none "zinc" 1 100 (by decide)⟩

/-- The inner loop of `GetCompositionByYear` implements first-match semantics
in declaration order: it agrees with `List.find?` on the range list. -/
theorem findYearRange_eq_find? (year : Int) (rs : List YearRange) :
    findYearRange year rs =
      (rs.find? (fun r => decide (r.startYear ≤ year ∧ year ≤ r.endYear))).map
        (fun r => r.composition) := by
  induction rs with
  | nil => rfl
  | cons r rest ih =>
      by_cases h : r.startYear ≤ year ∧ year ≤ r.endYear
      · simp [findYearRange, h]
      · simp [findYearRange, h, ih]

/-- The inner loop of `GetCompositionByYear` finds nothing when no range
contains the year. -/
theorem findYearRange_eq_none (year : Int) (rs : List YearRange)
    (h : ∀ r ∈ rs, ¬(r.startYear ≤ year ∧ year ≤ r.endYear)) :
    findYearRange year rs = none := by
  induction rs with
  | nil => rfl
  | cons r rest ih =>
      simp only [findYearRange]
      rw [if_neg (h r (List.mem_cons_self r rest))]
      exact ih (fun r' hr' => h r' (List.mem_cons_of_mem _ hr'))

/-- C4: for a coin type with a registered year-rule set and a year contained
in at least one range, the resolver returns the composition of the
first-declared matching range (the `List.find?` of the ranges in declaration
order), so with overlapping ranges the earlier-declared range wins. -/
theorem C4_year_range_first_match (table : List YearBasedComposition)
    (coinType : String) (year : Int) (ybc : YearBasedComposition)
    (yr : YearRange)
    (hfind : findYearBased coinType table = some ybc)
    (hfirst : ybc.yearRanges.find?
        (fun r => decide (r.startYear ≤ year ∧ year ≤ r.endYear)) = some yr) :
    getCompositionByYearIn table coinType year = (yr.composition, true) := by
  unfold getCompositionByYearIn
  simp only [hfind]
  rw [findYearRange_eq_find?, hfirst]
  rfl

/-- Closed instance of C4, the spec's overlapping-ranges test: ranges
1960-1970 and 1965-1975 both registered, year 1967 resolves to the
first-declared composition, which differs from the second-declared one. -/
theorem C4_witness :
    getCompositionByYearIn overlappingTestTable "Synthetic Test Coin" 1967 =
      (testCompA, true) ∧ testCompA ≠ testCompB :=
  ⟨C4_year_range_first_match overlappingTestTable "Synthetic Test Coin" 1967
      { coinType := "Synthetic Test Coin"
        yearRanges := [
          { startYear := 1960, endYear := 1970, composition := testCompA },
          { startYear := 1965, endYear := 1975, composition := testCompB }]
        defaultComp := testCompDefault }
      { startYear := 1960, endYear := 1970, composition := testCompA }
      (by decide) (by decide),
   by decide⟩

/-- C8: for a coin type with a registered year-rule set and a positive year
matched by none of its ranges, the resolver returns exactly the type's
default composition, with a found result — never NotFound. -/
theorem C8_default_when_no_range (table : List YearBasedComposition)
    (coinType : String) (year : Int) (ybc : YearBasedComposition)
    (hpos : 0 < year)
    (hfind : findYearBased coinType table = some ybc)
    (hnone : ∀ r ∈ ybc.yearRanges, ¬(r.startYear ≤ year ∧ year ≤ r.endYear)) :
    getCompositionByYearIn table coinType year = (ybc.defaultComp, true) := by
  unfold getCompositionByYearIn
  simp only [hfind]
  rw [findYearRange_eq_none year _ hnone]

/-- Closed instance of C8: a 1971 Kennedy Half Dollar is outside both
registered silver ranges and resolves to the clad default composition. -/
theorem C8_witness :
    (0 : Int) < 1971 ∧
    GetCompositionByYear "Kennedy Half Dollar" 1971 =
      ({ name := "Kennedy Half Dollar (1971+)", metalType := "copper",
         weight := 0.0, purity := 0,
         description := "1971+: Copper-nickel clad, no precious metal content" },
       true) :=
  ⟨by decide,
   C8_default_when_no_range YearBasedCompositions "Kennedy Half Dollar" 1971
     { coinType := "Kennedy Half Dollar"
       yearRanges := [
         { startYear := 1964, endYear := 1964,
           composition :=
             { name := "Kennedy Half Dollar (1964)", metalType := "silver",
               weight := 0.36169, purity := 90,
               description := "1964 only: Contains 0.36169 oz of silver (90% silver)" } },
         { startYear := 1965, endYear := 1970,
           composition :=
             { name := "Kennedy Half Dollar (1965-1970)", metalType := "silver",
               weight := 0.14792, purity := 40,
               description := "1965-1970: Contains 0.14792 oz of silver (40% silver)" } }]
       defaultComp :=
         { name := "Kennedy Half Dollar (1971+)", metalType := "copper",
           weight := 0.0, purity := 0,
           description := "1971+: Copper-nickel clad, no precious metal content" } }
     (by decide) rfl (by decide)⟩

/-! Lemmas about the normalizer. -/

/-- A character in the RE2 class `[A-Z]` is not a digit. -/
theorem isDigit_eq_false_of_isUpperAZ (c : Char) (h : isUpperAZ c = true) :
    c.isDigit = false := by
  unfold isUpperAZ at h
  simp only [Bool.and_eq_true, decide_eq_true_eq] at h
  by_contra hne
  rw [Bool.not_eq_false] at hne
  unfold Char.isDigit at hne
  simp only [Bool.and_eq_true, decide_eq_true_eq] at hne
  have h9 : c ≤ '9' := hne.2
  exact absurd (le_trans h.1 h9) (by decide)

/-- Without a leading four-digit token, the leading strip is the identity. -/
theorem stripLeadYear_of_no_tok (l : List Char)
    (h : hasLeadingYearTok l = false) : stripLeadYear l = l := by
  rcases l with _ | ⟨a, _ | ⟨b, _ | ⟨c, _ | ⟨d, rest⟩⟩⟩⟩ <;>
    simp_all [hasLeadingYearTok, stripLeadYear]

/-- Consuming the optional separator never lengthens the list. -/
theorem dropOptSep_length_le (l : List Char) :
    (dropOptSep l).length ≤ l.length := by
  rcases l with _ | ⟨e, t⟩
  · exact le_refl _
  · simp only [dropOptSep]
    split <;> simp

/-- Consuming the optional mint-mark letter never lengthens the list. -/
theorem dropOptMint_length_le (l : List Char) :
    (dropOptMint l).length ≤ l.length := by
  rcases l with _ | ⟨e, t⟩
  · exact le_refl _
  · simp only [dropOptMint]
    split <;> simp

/-- A present leading year token makes the leading strip strictly shorter. -/
theorem stripLeadYear_length_lt (l : List Char)
    (h : hasLeadingYearTok l = true) : (stripLeadYear l).length < l.length := by
  rcases l with _ | ⟨a, _ | ⟨b, _ | ⟨c, _ | ⟨d, rest⟩⟩⟩⟩
  · simp [hasLeadingYearTok] at h
  · simp [hasLeadingYearTok] at h
  · simp [hasLeadingYearTok] at h
  · simp [hasLeadingYearTok] at h
  unfold hasLeadingYearTok at h
  simp only [stripLeadYear]
  rw [if_pos h]
  calc ((dropOptMint (dropOptSep rest)).dropWhile isSpaceRE2).length
      ≤ (dropOptMint (dropOptSep rest)).length :=
        List.Sublist.length_le (List.dropWhile_sublist isSpaceRE2)
    _ ≤ (dropOptSep rest).length := dropOptMint_length_le _
    _ ≤ rest.length := dropOptSep_length_le _
    _ < rest.length + 4 := by omega
    _ = (a :: b :: c :: d :: rest).length := by simp

/-- The leading strip never lengthens the list. -/
theorem stripLeadYear_length_le (l : List Char) :
    (stripLeadYear l).length ≤ l.length := by
  by_cases h : hasLeadingYearTok l = true
  · exact le_of_lt (stripLeadYear_length_lt l h)
  · rw [stripLeadYear_of_no_tok l (by simpa using h)]

/-- With no suffix matching the trailing-grade pattern, the trailing strip is
the identity. -/
theorem stripTrailGrade_of_no_tok (l : List Char)
    (h : hasTrailingGradeTok l = false) : stripTrailGrade l = l := by
  unfold hasTrailingGradeTok at h
  rw [List.any_eq_false] at h
  unfold stripTrailGrade
  rw [List.find?_eq_none.mpr h]

/-- A present trailing-grade token makes the trailing strip strictly
shorter. -/
theorem stripTrailGrade_length_lt (l : List Char)
    (h : hasTrailingGradeTok l = true) : (stripTrailGrade l).length < l.length := by
  unfold hasTrailingGradeTok at h
  rw [List.any_eq_true] at h
  obtain ⟨i, hi, hp⟩ := h
  have hsome : ((List.range l.length).find? (fun i => matchGradeTok (l.drop i))).isSome := by
    rw [List.find?_isSome]
    exact ⟨i, hi, hp⟩
  obtain ⟨j, hj⟩ := Option.isSome_iff_exists.mp hsome
  have hjlt : j < l.length := List.mem_range.mp (List.mem_of_find?_eq_some hj)
  unfold stripTrailGrade
  rw [hj]
  simp only [List.length_take]
  omega

/-- The trailing strip never lengthens the list. -/
theorem stripTrailGrade_length_le (l : List Char) :
    (stripTrailGrade l).length ≤ l.length := by
  unfold stripTrailGrade
  rcases hf : (List.range l.length).find? (fun i => matchGradeTok (l.drop i)) with _ | j
  · exact le_refl _
  · simp only [List.length_take]
    omega

/-- C7 as stated is false: normalization is not idempotent on every string;
stripping one trailing grade token can expose another. -/
theorem C7_counterexample :
    normalizeCoinType (normalizeCoinType "coin AB12 CD34") ≠
      normalizeCoinType "coin AB12 CD34" := by decide

/-- C7 (amended): normalization is idempotent exactly on the strings whose
normal form is free of both tokens — it carries no leading four-digit year
token and no suffix matching the trailing-grade pattern.  (In general a
second application can strip a further token exposed by the first.) -/
theorem C7_idempotence_iff (s : String) :
    normalizeCoinType (normalizeCoinType s) = normalizeCoinType s ↔
      (hasLeadingYearTok (normalizeCoinType s).data = false ∧
       hasTrailingGradeTok (normalizeCoinType s).data = false) := by
  constructor
  · intro h
    have hd : stripTrailGrade (stripLeadYear (normalizeCoinType s).data) =
        (normalizeCoinType s).data := congrArg String.data h
    by_cases hl : hasLeadingYearTok (normalizeCoinType s).data = true
    · exfalso
      have h1 := stripTrailGrade_length_le (stripLeadYear (normalizeCoinType s).data)
      have h2 := stripLeadYear_length_lt (normalizeCoinType s).data hl
      have h3 := congrArg List.length hd
      omega
    · have hl' : hasLeadingYearTok (normalizeCoinType s).data = false := by
        simpa using hl
      rw [stripLeadYear_of_no_tok _ hl'] at hd
      by_cases ht : hasTrailingGradeTok (normalizeCoinType s).data = true
      · exfalso
        have h2 := stripTrailGrade_length_lt (normalizeCoinType s).data ht
        have h3 := congrArg List.length hd
        omega
      · exact ⟨hl', by simpa using ht⟩
  · rintro ⟨hl, ht⟩
    show (⟨stripTrailGrade (stripLeadYear (normalizeCoinType s).data)⟩ : String) =
      normalizeCoinType s
    rw [stripLeadYear_of_no_tok _ hl, stripTrailGrade_of_no_tok _ ht]

/-- The code's whole-suffix grade matcher agrees with the run-based statement
of the exactly-2-letter pattern. -/
theorem matchGradeTok_eq_specTwo (l : List Char) :
    matchGradeTok l = specMatchGradeTokTwo l := by
  unfold matchGradeTok specMatchGradeTokTwo
  rw [List.span_eq_take_drop]
  generalize l.takeWhile isSpaceRE2 = w
  generalize l.dropWhile isSpaceRE2 = r1
  rcases r1 with _ | ⟨a, _ | ⟨b, r2⟩⟩
  · simp [List.span_eq_take_drop]
  · cases ha : isUpperAZ a <;>
      simp [List.span_eq_take_drop, List.takeWhile_cons, List.dropWhile_cons, ha]
  · cases ha : isUpperAZ a
    · simp [List.span_eq_take_drop, List.takeWhile_cons, ha]
    · cases hb : isUpperAZ b
      · simp [List.span_eq_take_drop, List.takeWhile_cons, List.dropWhile_cons, ha, hb]
      · rcases r2 with _ | ⟨c, r3⟩
        · simp [List.span_eq_take_drop, List.takeWhile_cons, List.dropWhile_cons, ha, hb]
        · cases hc : isUpperAZ c
          · simp [List.span_eq_take_drop, List.takeWhile_cons, List.dropWhile_cons,
              ha, hb, hc, Bool.and_assoc]
          · have hcd := isDigit_eq_false_of_isUpperAZ c hc
            simp [List.span_eq_take_drop, List.takeWhile_cons, List.dropWhile_cons,
              ha, hb, hc, hcd, Bool.and_assoc]

/-- The code's trailing strip agrees with the run-based exactly-2-letter
variant. -/
theorem stripTrailGrade_eq_specTwo (l : List Char) :
    stripTrailGrade l = specStripTrailGradeTwo l := by
  unfold stripTrailGrade specStripTrailGradeTwo
  have hfun : (fun i => matchGradeTok (l.drop i)) =
      (fun i => specMatchGradeTokTwo (l.drop i)) :=
    funext fun i => matchGradeTok_eq_specTwo (l.drop i)
  rw [hfun]

/-- C6 as stated is false: the code's trailing-grade class is `[A-Z]{2}`, not
the spec's `[A-Z]{2,4}`; a 4-letter grade such as "DMPL65" is left in place
by the code although the spec's pattern matches and demands stripping it. -/
theorem C6_counterexample :
    specNormalize "Peace Dollar DMPL65" = "Peace Dollar" ∧
    normalizeCoinType "Peace Dollar DMPL65" = "Peace Dollar DMPL65" ∧
    normalizeCoinType "Peace Dollar DMPL65" ≠ specNormalize "Peace Dollar DMPL65" := by
  decide

/-- C6 (amended): for every input, `normalizeCoinType` strips a leading
year/mint-mark token per the spec's leading pattern and a trailing grade
token per the trailing pattern with an exactly-2-letter grade class (stated
independently through character runs), and returns the input unchanged when
neither pattern matches. -/
theorem C6_normalize_regexes (s : String) :
    normalizeCoinType s = specNormalizeTwo s ∧
    (hasLeadingYearTok s.data = false → hasTrailingGradeTok s.data = false →
      normalizeCoinType s = s) := by
  constructor
  · unfold normalizeCoinType specNormalizeTwo
    rw [stripTrailGrade_eq_specTwo]
  · intro hl ht
    show (⟨stripTrailGrade (stripLeadYear s.data)⟩ : String) = s
    rw [stripLeadYear_of_no_tok _ hl, stripTrailGrade_of_no_tok _ ht]

/-- Closed instance of C6 (amended): a clean catalog name is left unchanged
and agrees with the run-based pattern statement. -/
theorem C6_witness :
    hasLeadingYearTok "Morgan Dollar".data = false ∧
    hasTrailingGradeTok "Morgan Dollar".data = false ∧
    normalizeCoinType "Morgan Dollar" = specNormalizeTwo "Morgan Dollar" ∧
    normalizeCoinType "Morgan Dollar" = "Morgan Dollar" :=
  ⟨by decide, by decide, (C6_normalize_regexes "Morgan Dollar").1,
   (C6_normalize_regexes "Morgan Dollar").2 (by decide) (by decide)⟩

/-! Lemmas and claim theorems for melt-value nonnegativity. -/

/-- The static fallback constants are nonnegative. -/
theorem fallbackPrices_nonneg (now : ℕ) : NonnegPrices (fallbackPrices now) := by
  refine ⟨?_, ?_, ?_, ?_, ?_, ?_⟩ <;> norm_num [fallbackPrices]

/-- Every snapshot `GetSpotPrices` can return has nonnegative prices, given
that the cache and the fetch oracle only hold nonnegative snapshots. -/
theorem getSpotPrices_prices_nonneg (st : OracleState) (now : ℕ)
    (f : Option SpotPrices) (hst : NonnegOracleState st) (hf : NonnegFetch f) :
    NonnegPrices (GetSpotPrices st now f).prices := by
  rcases st with ⟨cached, last⟩
  rcases cached with _ | p <;> rcases f with _ | q
  · exact fallbackPrices_nonneg now
  · exact hf q rfl
  · simp only [GetSpotPrices, refreshSpotPrices]
    split
    · exact hst p rfl
    · exact fallbackPrices_nonneg now
  · simp only [GetSpotPrices, refreshSpotPrices]
    split
    · exact hst p rfl
    · exact hf q rfl

/-- The precious path never produces a negative value. -/
theorem calculateMeltValue_value_nonneg (st : OracleState) (now : ℕ)
    (f : Option SpotPrices) (metalType : String) (weight purity : ℚ)
    (hw : 0 ≤ weight) (hp : 0 ≤ purity)
    (hst : NonnegOracleState st) (hf : NonnegFetch f) :
    0 ≤ (CalculateMeltValue st now f metalType weight purity).value := by
  obtain ⟨hg, hs, hpt, hpd, _, _⟩ := getSpotPrices_prices_nonneg st now f hst hf
  unfold CalculateMeltValue
  simp only [getSpotPrices_error_eq_none]
  split_ifs <;>
    first
      | exact mul_nonneg (mul_nonneg hw (div_nonneg hp (by norm_num))) hg
      | exact mul_nonneg (mul_nonneg hw (div_nonneg hp (by norm_num))) hs
      | exact mul_nonneg (mul_nonneg hw (div_nonneg hp (by norm_num))) hpt
      | exact mul_nonneg (mul_nonneg hw (div_nonneg hp (by norm_num))) hpd
      | exact le_refl 0

/-- The base-metal path never produces a negative value. -/
theorem calculateBaseMeltValue_value_nonneg (st : OracleState) (now : ℕ)
    (f : Option SpotPrices) (wg cp np : ℚ)
    (hwg : 0 ≤ wg) (hcp : 0 ≤ cp) (hnp : 0 ≤ np)
    (hst : NonnegOracleState st) (hf : NonnegFetch f) :
    0 ≤ (CalculateBaseMeltValue st now f wg cp np).value := by
  obtain ⟨_, _, _, _, hcu, hni⟩ := getSpotPrices_prices_nonneg st now f hst hf
  unfold CalculateBaseMeltValue
  simp only [getSpotPrices_error_eq_none]
  exact add_nonneg
    (mul_nonneg (mul_nonneg (div_nonneg hwg (by norm_num)) (div_nonneg hcp (by norm_num))) hcu)
    (mul_nonneg (mul_nonneg (div_nonneg hwg (by norm_num)) (div_nonneg hnp (by norm_num))) hni)

/-- The precious path reports no error on the six known metal types. -/
theorem calculateMeltValue_error_of_known (st : OracleState) (now : ℕ)
    (f : Option SpotPrices) (metalType : String) (weight purity : ℚ)
    (h : metalType ∈ (["gold", "silver", "platinum", "palladium",
      "copper", "nickel"] : List String)) :
    (CalculateMeltValue st now f metalType weight purity).error = none := by
  unfold CalculateMeltValue
  simp only [getSpotPrices_error_eq_none]
  simp only [List.mem_cons, List.not_mem_nil, or_false] at h
  rcases h with h | h | h | h | h | h <;> subst h <;> simp

/-- The precious path returns the value 0 on the "copper" sentinel. -/
theorem calculateMeltValue_copper_value (st : OracleState) (now : ℕ)
    (f : Option SpotPrices) (weight purity : ℚ) :
    (CalculateMeltValue st now f "copper" weight purity).value = 0 := by
  unfold CalculateMeltValue
  simp only [getSpotPrices_error_eq_none]
  simp

/-- C9 as stated is false: a composition with nonnegative fields but a metal
type outside the known enum ("zinc", not base-metal) makes the composition
calculator return an error, so "never an error" fails. -/
theorem C9_counterexample :
    (CalculateMeltValueFromComposition ⟨none, 0⟩ 0 none
        { name := "", metalType := "zinc" }).error ≠ none := by decide

/-- C9 (amended): for every composition with nonnegative weight, purity and
percentage fields and nonnegative spot prices, both calculator forms return a
nonnegative (exact, hence finite) value; the error is `nil` whenever the
composition is base-metal or its metal type lies in the known enum (any other
metal type still yields the value 0, but with an error); and the precious
"copper" sentinel yields exactly 0. -/
theorem C9_melt_value_nonneg (st : OracleState) (now : ℕ)
    (fetchResult : Option SpotPrices) (comp : MetalComposition)
    (hw : 0 ≤ comp.weight) (hp : 0 ≤ comp.purity) (hwg : 0 ≤ comp.weightGrams)
    (hcp : 0 ≤ comp.copperPercent) (hnp : 0 ≤ comp.nickelPercent)
    (hst : NonnegOracleState st) (hf : NonnegFetch fetchResult) :
    0 ≤ (CalculateMeltValueFromComposition st now fetchResult comp).value ∧
    (comp.isBaseMetal = true ∨
        comp.metalType ∈ (["gold", "silver", "platinum", "palladium",
          "copper", "nickel"] : List String) →
      (CalculateMeltValueFromComposition st now fetchResult comp).error = none) ∧
    (comp.metalType = "copper" → comp.isBaseMetal = false →
      (CalculateMeltValueFromComposition st now fetchResult comp).value = 0) := by
  refine ⟨?_, ?_, ?_⟩
  · unfold CalculateMeltValueFromComposition
    by_cases hbm : comp.isBaseMetal
    · rw [if_pos hbm]
      exact calculateBaseMeltValue_value_nonneg st now fetchResult _ _ _ hwg hcp hnp hst hf
    · rw [if_neg hbm]
      exact calculateMeltValue_value_nonneg st now fetchResult _ _ _ hw hp hst hf
  · intro hmem
    unfold CalculateMeltValueFromComposition
    by_cases hbm : comp.isBaseMetal
    · rw [if_pos hbm]
      unfold CalculateBaseMeltValue
      simp only [getSpotPrices_error_eq_none]
    · rw [if_neg hbm]
      rcases hmem with hb | hm
      · exact absurd hb hbm
      · exact calculateMeltValue_error_of_known st now fetchResult _ _ _ hm
  · intro hcop hnb
    unfold CalculateMeltValueFromComposition
    rw [if_neg (by simp [hnb]), hcop]
    exact calculateMeltValue_copper_value st now fetchResult _ _

/-- Closed instance of C9 (amended): the zero-sentinel composition
(metal type "copper", zero weight, not base-metal) yields exactly 0 with no
error. -/
theorem C9_witness :
    (CalculateMeltValueFromComposition ⟨none, 0⟩ 0 none
        { name := "", metalType := "copper" }).value = 0 ∧
    (CalculateMeltValueFromComposition ⟨none, 0⟩ 0 none
        { name := "", metalType := "copper" }).error = none := by
  have h := C9_melt_value_nonneg ⟨none, 0⟩ 0 none { name := "", metalType := "copper" }
      le_rfl le_rfl le_rfl le_rfl le_rfl (fun p hp => nomatch hp) (fun p hp => nomatch hp)
  exact ⟨h.2.2 rfl rfl, h.2.1 (Or.inr (by decide))⟩

end Aureus
